import Mathlib

/-!
# Verification of the FATES rigid-body physics engine

Shallow embedding of the physics module of the FATES repository
(`src/js/armada/graphics.js`: `Force`, `Torque`, `Body`, `PhysicalObject`)
together with proofs about its behaviour.

JavaScript numbers are modelled as real numbers (`ℝ`); mutation is modelled
by explicit state passing: a method that mutates its receiver becomes a
function returning the updated value.  The vector/matrix helper library
(`Vec.*` / `Mat.*`) is an external dependency of the repository that is not
part of the source tree; those helpers are modelled from the specification
("standard operations (multiply, inverse, normalize)" on 3-vectors and 4x4
homogeneous matrices, row-vector convention), and each such definition is
marked `Modelled from the spec:` in its doc comment.
-/

open scoped Classical

noncomputable section

/-- 3-component vector of reals (a JS `Number[3]`). -/
abbrev Vec3 := Fin 3 → ℝ

/-- 4-component vector of reals (a JS `Number[4]`, homogeneous form). -/
abbrev Vec4 := Fin 4 → ℝ

/-- 4x4 matrix of reals (a JS `Float32Array` of 16 entries, row-major). -/
abbrev Mat4 := Matrix (Fin 4) (Fin 4) ℝ

/-- 3x3 matrix of reals. -/
abbrev Mat3 := Matrix (Fin 3) (Fin 3) ℝ

namespace Vec

/-- Modelled from the spec: componentwise sum of two 3-vectors (`Vec.add3`). -/
def add3 (u v : Vec3) : Vec3 := fun i => u i + v i

/-- Modelled from the spec: a 3-vector scaled by a scalar (`Vec.scaled3`). -/
def scaled3 (v : Vec3) (s : ℝ) : Vec3 := fun i => v i * s

/-- Modelled from the spec: Euclidean length of a 3-vector (`Vec.length3`). -/
def length3 (v : Vec3) : ℝ :=
  Real.sqrt (v 0 * v 0 + v 1 * v 1 + v 2 * v 2)

/-- Modelled from the spec: normalization of a 3-vector (`Vec.normal3`),
dividing each component by the Euclidean length.  The source inherits the
"garbage in, garbage out" contract for a zero-length input (division by
zero); in this model division by zero yields `0`. -/
def normal3 (v : Vec3) : Vec3 := fun i => v i / length3 v

/-- Modelled from the spec: cross product of two 3-vectors (`Vec.cross3`). -/
def cross3 (u v : Vec3) : Vec3 :=
  ![u 1 * v 2 - u 2 * v 1, u 2 * v 0 - u 0 * v 2, u 0 * v 1 - u 1 * v 0]

/-- Modelled from the spec: row-vector times 4x4 matrix (`Vec.mulVec4Mat4`). -/
def mulVec4Mat4 (v : Vec4) (m : Mat4) : Vec4 :=
  fun j => v 0 * m 0 j + v 1 * m 1 j + v 2 * m 2 j + v 3 * m 3 j

/-- Modelled from the spec: row-vector times 3x3 matrix (`Vec.mulVec3Mat3`). -/
def mulVec3Mat3 (v : Vec3) (m : Mat3) : Vec3 :=
  fun j => v 0 * m 0 j + v 1 * m 1 j + v 2 * m 2 j

end Vec

namespace Mat

/-- Modelled from the spec: the 4x4 identity matrix (`Mat.identity4`). -/
def identity4 : Mat4 := 1

/-- Modelled from the spec: product of two 4x4 matrices (`Mat.mul4`),
with `mul4 a b` composing `a` first under the row-vector convention. -/
def mul4 (a b : Mat4) : Mat4 := a * b

/-- Modelled from the spec: the 4x4 homogeneous translation matrix of a
3-vector (`Mat.translation4v`); row-vector convention, translation in the
last row. -/
def translation4v (v : Vec3) : Mat4 :=
  !![1, 0, 0, 0;
     0, 1, 0, 0;
     0, 0, 1, 0;
     v 0, v 1, v 2, 1]

/-- Modelled from the spec: the translation components of a 4x4 matrix
(`Mat.translationVector3`). -/
def translationVector3 (m : Mat4) : Vec3 := ![m 3 0, m 3 1, m 3 2]

/-- Modelled from the spec: inverse of a 4x4 translation matrix
(`Mat.inverseOfTranslation4`): translation by the negated components. -/
def inverseOfTranslation4 (m : Mat4) : Mat4 :=
  !![1, 0, 0, 0;
     0, 1, 0, 0;
     0, 0, 1, 0;
     -m 3 0, -m 3 1, -m 3 2, 1]

/-- Modelled from the spec: inverse of a 4x4 rotation matrix
(`Mat.inverseOfRotation4`): the transpose. -/
def inverseOfRotation4 (m : Mat4) : Mat4 := m.transpose

/-- Modelled from the spec: inverse of a 4x4 scaling matrix
(`Mat.inverseOfScaling4`): scaling by the reciprocal factors. -/
def inverseOfScaling4 (m : Mat4) : Mat4 :=
  !![1 / m 0 0, 0, 0, 0;
     0, 1 / m 1 1, 0, 0;
     0, 0, 1 / m 2 2, 0;
     0, 0, 0, 1]

/-- Modelled from the spec: the top-left 3x3 submatrix of a 4x4 matrix
(`Mat.matrix3from4`). -/
def matrix3from4 (m : Mat4) : Mat3 :=
  fun i j => m i.castSucc j.castSucc

/-- Modelled from the spec: the 4x4 rotation matrix about a (unit) axis by a
given angle (`Mat.rotation4`), by the Rodrigues formula, row-vector
convention. -/
def rotation4 (axis : Vec3) (angle : ℝ) : Mat4 :=
  let c := Real.cos angle
  let s := Real.sin angle
  let x := axis 0
  let y := axis 1
  let z := axis 2
  !![c + (1 - c) * x * x, (1 - c) * x * y + s * z, (1 - c) * x * z - s * y, 0;
     (1 - c) * x * y - s * z, c + (1 - c) * y * y, (1 - c) * y * z + s * x, 0;
     (1 - c) * x * z + s * y, (1 - c) * y * z - s * x, c + (1 - c) * z * z, 0;
     0, 0, 0, 1]

/-- Modelled from the spec: the "straightening" numerical-hygiene pass
(`Mat.straightened`): snaps each entry within `epsilon` of `0`, `1` or `-1`
to that clean value ("snaps near-zero or near-orthogonal components to clean
values"). -/
def straightened (m : Mat4) (epsilon : ℝ) : Mat4 :=
  Matrix.of fun i j =>
    if |m i j| < epsilon then 0
    else if |m i j - 1| < epsilon then 1
    else if |m i j + 1| < epsilon then -1
    else m i j

/-- A 4x4 matrix is a rigid rotation: last row and column are those of the
identity and the matrix is orthogonal. -/
def IsRigidRotation (m : Mat4) : Prop :=
  m 3 0 = 0 ∧ m 3 1 = 0 ∧ m 3 2 = 0 ∧ m 3 3 = 1 ∧
  m 0 3 = 0 ∧ m 1 3 = 0 ∧ m 2 3 = 0 ∧
  m * m.transpose = 1

/-- The first three entries of row `i` of a 4x4 matrix. -/
def row3 (m : Mat4) (i : Fin 4) : Vec3 := fun j => m i j.castSucc

/-- The 4x4 rigid matrix with the given three rows as its rotation part. -/
def fromRows3 (a b c : Vec3) : Mat4 :=
  !![a 0, a 1, a 2, 0;
     b 0, b 1, b 2, 0;
     c 0, c 1, c 2, 0;
     0, 0, 0, 1]

/-- Modelled from the spec: re-orthogonalization of an orientation matrix
(`Mat.correctedOrthogonal4`), which exists solely to compensate floating
point inaccuracies.  In exact real arithmetic it fixes matrices that are
already rigid rotations; a drifted matrix is projected back via normalized
cross products of its first two rows (Gram-Schmidt style). -/
def correctedOrthogonal4 (m : Mat4) : Mat4 :=
  if IsRigidRotation m then m
  else
    let vx := Vec.normal3 (row3 m 0)
    let vy0 := Vec.normal3 (row3 m 1)
    let vz := Vec.cross3 vx vy0
    let vy := Vec.cross3 vz vx
    fromRows3 vx vy vz

end Mat

/-! ## Force (`graphics.js` lines 1880-1969) -/

/-- A force affecting a physical object (`Force`).  Fields are the JS
fields `_id`, `_strength` (newtons), `_direction` (normalized on
construction), `_duration` (remaining, in milliseconds). -/
structure Force where
  id : String
  strength : ℝ
  direction : Vec3
  duration : ℝ

namespace Force

/-- `new Force(id, strength, direction, duration)`: the constructor
normalizes the direction before storing it. -/
def make (id : String) (strength : ℝ) (direction : Vec3) (duration : ℝ) :
    Force :=
  { id := id
    strength := strength
    direction := Vec.normal3 direction
    duration := duration }

/-- `Force.prototype.renew`: overwrites strength, re-normalizes and stores
the direction, resets the duration. -/
def renew (f : Force) (strength : ℝ) (direction : Vec3) (duration : ℝ) :
    Force :=
  { f with
      strength := strength
      direction := Vec.normal3 direction
      duration := duration }

/-- `Force.prototype.getExertionDuration`: returns the exerted portion of
`dt` and the updated force (the JS method mutates `_duration` in place). -/
def getExertionDuration (f : Force) (dt : ℝ) : ℝ × Force :=
  if f.duration > 0.1 then
    (min f.duration dt, { f with duration := f.duration - dt })
  else
    (0, f)

/-- `Force.prototype.getAccelerationVector`: `direction * (strength / mass)`. -/
def getAccelerationVector (f : Force) (mass : ℝ) : Vec3 :=
  Vec.scaled3 f.direction (f.strength / mass)

end Force

/-! ## Torque (`graphics.js` lines 1970-2058) -/

/-- A torque affecting a physical object (`Torque`).  Fields are the JS
fields `_id`, `_strength` (kg*rad/s^2), `_axis`, `_duration` (ms). -/
structure Torque where
  id : String
  strength : ℝ
  axis : Vec3
  duration : ℝ

namespace Torque

/-- `new Torque(id, strength, axis, duration)`: the constructor normalizes
the axis before storing it. -/
def make (id : String) (strength : ℝ) (axis : Vec3) (duration : ℝ) :
    Torque :=
  { id := id
    strength := strength
    axis := Vec.normal3 axis
    duration := duration }

/-- `Torque.prototype.renew` (lines 2024-2028): overwrites strength, axis
and duration.  Note: unlike the constructor and unlike `Force.renew`, the
source stores the passed axis as-is, without normalizing it. -/
def renew (t : Torque) (strength : ℝ) (axis : Vec3) (duration : ℝ) :
    Torque :=
  { t with
      strength := strength
      axis := axis
      duration := duration }

/-- `Torque.prototype.getExertionDuration`: same shape as the `Force`
version. -/
def getExertionDuration (t : Torque) (dt : ℝ) : ℝ × Torque :=
  if t.duration > 0.1 then
    (min t.duration dt, { t with duration := t.duration - dt })
  else
    (0, t)

/-- `Torque.prototype.getAngularAccelerationMatrixOverTime`: rotation about
the stored axis by angle `strength / mass * t`. -/
def getAngularAccelerationMatrixOverTime (t : Torque) (mass time : ℝ) :
    Mat4 :=
  Mat.rotation4 t.axis (t.strength / mass * time)

end Torque

/-! ## Body (`graphics.js` lines 2059-2188) -/

/-- A box-shaped physical body (`Body`).  Fields are the JS fields
`_positionMatrix`, `_orientationMatrix`, `_width`, `_height`, `_depth`.
The JS object also caches `_modelMatrixInverse` lazily; a `Body` is
immutable after construction, so the cache, once filled, always equals the
computed value and is modelled by computing it directly. -/
structure Body where
  positionMatrix : Mat4
  orientationMatrix : Mat4
  width : ℝ
  height : ℝ
  depth : ℝ

namespace Body

/-- `new Body(positionMatrix, orientationMatrix, dimensions)`. -/
def make (positionMatrix orientationMatrix : Mat4) (dimensions : Vec3) :
    Body :=
  { positionMatrix := positionMatrix
    orientationMatrix := orientationMatrix
    width := dimensions 0
    height := dimensions 1
    depth := dimensions 2 }

/-- `Body.prototype.getHalfDimensions`. -/
def getHalfDimensions (b : Body) : Vec3 :=
  ![b.width * 0.5, b.height * 0.5, b.depth * 0.5]

/-- `Body.prototype.getModelMatrixInverse`: inverse translation composed
with inverse rotation (the value the lazy cache always holds). -/
def getModelMatrixInverse (b : Body) : Mat4 :=
  Mat.mul4 (Mat.inverseOfTranslation4 b.positionMatrix)
    (Mat.inverseOfRotation4 b.orientationMatrix)

/-- `Body.prototype.checkHit`: transforms the point by the body's inverse
model matrix and tests axis-aligned containment within the half
dimensions. -/
def checkHit (b : Body) (relativePositionVector : Vec4) : Bool :=
  let r := Vec.mulVec4Mat4 relativePositionVector b.getModelMatrixInverse
  decide ((r 0 ≥ -b.width * 0.5) ∧ (r 0 ≤ b.width * 0.5) ∧
    (r 1 ≥ -b.height * 0.5) ∧ (r 1 ≤ b.height * 0.5) ∧
    (r 2 ≥ -b.depth * 0.5) ∧ (r 2 ≤ b.depth * 0.5))

end Body

/-! ## PhysicalObject (`graphics.js` lines 2189-2552) -/

/-- The state of a `PhysicalObject`.  Fields are the JS fields; the two
lazily cached inverse matrices are `Option`-valued (`none` models the JS
`null`). -/
structure PhysicalObject where
  mass : ℝ
  positionMatrix : Mat4
  orientationMatrix : Mat4
  scalingMatrix : Mat4
  rotationMatrixInverse : Option Mat4
  modelMatrixInverse : Option Mat4
  velocityMatrix : Mat4
  angularVelocityMatrix : Mat4
  forces : List Force
  torques : List Torque
  bodies : List Body
  bodySize : ℝ

namespace PhysicalObject

/-- `PhysicalObject.prototype._calculateBodySize`, on the structure's
orientation matrix and body list: the running maximum (starting from 0) of
the lengths of `bodyPos ± halfDim` over the eight sign combinations applied
to the components of the rotated half-dimension vector, in source order. -/
def bodySizeStep (orientationMatrix : Mat4) (acc : ℝ) (b : Body) : ℝ :=
  let bodyPos := Mat.translationVector3 b.positionMatrix
  let halfDim := Vec.mulVec3Mat3 b.getHalfDimensions
    (Mat.matrix3from4 (Mat.mul4 orientationMatrix b.orientationMatrix))
  let s1 := max acc (Vec.length3 (Vec.add3 bodyPos halfDim))
  let s2 := max s1 (Vec.length3 (Vec.add3 bodyPos
    ![halfDim 0, halfDim 1, -halfDim 2]))
  let s3 := max s2 (Vec.length3 (Vec.add3 bodyPos
    ![halfDim 0, -halfDim 1, halfDim 2]))
  let s4 := max s3 (Vec.length3 (Vec.add3 bodyPos
    ![halfDim 0, -halfDim 1, -halfDim 2]))
  let s5 := max s4 (Vec.length3 (Vec.add3 bodyPos
    ![-halfDim 0, halfDim 1, halfDim 2]))
  let s6 := max s5 (Vec.length3 (Vec.add3 bodyPos
    ![-halfDim 0, halfDim 1, -halfDim 2]))
  let s7 := max s6 (Vec.length3 (Vec.add3 bodyPos
    ![-halfDim 0, -halfDim 1, halfDim 2]))
  max s7 (Vec.length3 (Vec.add3 bodyPos
    ![-halfDim 0, -halfDim 1, -halfDim 2]))

/-- The value `_calculateBodySize` stores in `_bodySize`. -/
def calculateBodySize (orientationMatrix : Mat4) (bodies : List Body) : ℝ :=
  bodies.foldl (bodySizeStep orientationMatrix) 0

/-- `new PhysicalObject(mass, positionMatrix, orientationMatrix,
scalingMatrix, initialVelocityMatrix, bodies)`: caches start out `null`,
the angular velocity matrix starts as the identity, the force and torque
lists start empty, and `_calculateBodySize` fills `_bodySize`. -/
def make (mass : ℝ) (positionMatrix orientationMatrix scalingMatrix
    initialVelocityMatrix : Mat4) (bodies : List Body) : PhysicalObject :=
  { mass := mass
    positionMatrix := positionMatrix
    orientationMatrix := orientationMatrix
    scalingMatrix := scalingMatrix
    rotationMatrixInverse := none
    modelMatrixInverse := none
    velocityMatrix := initialVelocityMatrix
    angularVelocityMatrix := Mat.identity4
    forces := []
    torques := []
    bodies := bodies
    bodySize := calculateBodySize orientationMatrix bodies }

/-- `PhysicalObject.prototype.addForce`: appends to the force list. -/
def addForce (s : PhysicalObject) (force : Force) : PhysicalObject :=
  { s with forces := s.forces ++ [force] }

/-- `PhysicalObject.prototype.addTorque`: appends to the torque list. -/
def addTorque (s : PhysicalObject) (torque : Torque) : PhysicalObject :=
  { s with torques := s.torques ++ [torque] }

/-- `PhysicalObject.prototype.setPositionMatrix`: sets the position and
invalidates the cached inverse model matrix. -/
def setPositionMatrix (s : PhysicalObject) (value : Mat4) : PhysicalObject :=
  { s with
      positionMatrix := value
      modelMatrixInverse := none }

/-- `PhysicalObject.prototype.setOrientationMatrix`: sets the orientation
and invalidates both cached inverse matrices. -/
def setOrientationMatrix (s : PhysicalObject) (value : Mat4) :
    PhysicalObject :=
  { s with
      orientationMatrix := value
      rotationMatrixInverse := none
      modelMatrixInverse := none }

/-- `PhysicalObject.prototype.getRotationMatrixInverse`: returns the cached
inverse of the orientation matrix, computing and caching it when the cache
is empty (the JS method assigns the cache field and returns it). -/
def getRotationMatrixInverse (s : PhysicalObject) : Mat4 × PhysicalObject :=
  match s.rotationMatrixInverse with
  | some r => (r, s)
  | none =>
    let r := Mat.inverseOfRotation4 s.orientationMatrix
    (r, { s with rotationMatrixInverse := some r })

/-- `PhysicalObject.prototype.getModelMatrixInverse`: returns the cached
inverse of the model matrix, computing it as inverse translation times
inverse rotation times inverse scaling when the cache is empty (the
computation goes through `getRotationMatrixInverse`, which also fills that
cache). -/
def getModelMatrixInverse (s : PhysicalObject) : Mat4 × PhysicalObject :=
  match s.modelMatrixInverse with
  | some m => (m, s)
  | none =>
    let rs := getRotationMatrixInverse s
    let m := Mat.mul4
      (Mat.mul4 (Mat.inverseOfTranslation4 s.positionMatrix) rs.1)
      (Mat.inverseOfScaling4 s.scalingMatrix)
    (m, { rs.2 with modelMatrixInverse := some m })

/-- The force-list scan of `PhysicalObject.prototype.addOrRenewForce`:
renews the first force whose ID matches and breaks, appending a new force
at the end when no force matches. -/
def addOrRenewForceList (l : List Force) (forceID : String) (strength : ℝ)
    (direction : Vec3) (duration : ℝ) : List Force :=
  match l with
  | [] => [Force.make forceID strength direction duration]
  | f :: rest =>
    if f.id = forceID then f.renew strength direction duration :: rest
    else f :: addOrRenewForceList rest forceID strength direction duration

/-- `PhysicalObject.prototype.addOrRenewForce`. -/
def addOrRenewForce (s : PhysicalObject) (forceID : String) (strength : ℝ)
    (direction : Vec3) (duration : ℝ) : PhysicalObject :=
  { s with forces :=
      addOrRenewForceList s.forces forceID strength direction duration }

/-- The torque-list scan of `PhysicalObject.prototype.addOrRenewTorque`. -/
def addOrRenewTorqueList (l : List Torque) (torqueID : String)
    (strength : ℝ) (axis : Vec3) (duration : ℝ) : List Torque :=
  match l with
  | [] => [Torque.make torqueID strength axis duration]
  | t :: rest =>
    if t.id = torqueID then t.renew strength axis duration :: rest
    else t :: addOrRenewTorqueList rest torqueID strength axis duration

/-- `PhysicalObject.prototype.addOrRenewTorque`. -/
def addOrRenewTorque (s : PhysicalObject) (torqueID : String)
    (strength : ℝ) (axis : Vec3) (duration : ℝ) : PhysicalObject :=
  { s with torques :=
      addOrRenewTorqueList s.torques torqueID strength axis duration }

/-- The body loop of `PhysicalObject.prototype.checkHit`
(`for (i = 0; (result === false) && (i < this._bodies.length); i++)`):
returns the resulting boolean together with the number of bodies whose
`checkHit` was invoked. -/
def bodiesLoop (relativePos : Vec4) : List Body → Bool × ℕ
  | [] => (false, 0)
  | b :: rest =>
    if b.checkHit relativePos then (true, 1)
    else
      let p := bodiesLoop relativePos rest
      (p.1, p.2 + 1)

/-- `PhysicalObject.prototype.checkHit`: appends the homogeneous coordinate
`1` to the caller's array in place (modelled by returning the pushed list),
transforms by the inverse model matrix, and scans the bodies only when all
three transformed coordinates are strictly below the cached body size in
absolute value.  Returns the JS boolean result, the number of
`Body.checkHit` invocations, and the final contents of the caller's
argument array. -/
def checkHit (s : PhysicalObject) (positionVector : List ℝ) :
    Bool × ℕ × List ℝ :=
  let pv := positionVector ++ [1]
  let relativePos :=
    Vec.mulVec4Mat4 (fun i => pv.getD i 0) (getModelMatrixInverse s).1
  if |relativePos 0| < s.bodySize ∧ |relativePos 1| < s.bodySize ∧
      |relativePos 2| < s.bodySize then
    let p := bodiesLoop relativePos s.bodies
    (p.1, p.2, pv)
  else
    (false, 0, pv)

/-- The angular-drift loop of `simulate`
(`for (i = 0; i + 2 < dt; i += 5)`), composing the orientation with the
angular-velocity matrix once per iteration.  The counter `i` only takes
values in `ℕ` (multiples of 5). -/
def rotIter (angularVelocityMatrix : Mat4) (dt : ℝ) (i : ℕ)
    (orientationMatrix : Mat4) : Mat4 :=
  if h : (i : ℝ) + 2 < dt then
    rotIter angularVelocityMatrix dt (i + 5)
      (Mat.mul4 orientationMatrix angularVelocityMatrix)
  else orientationMatrix
termination_by Nat.ceil dt - i
decreasing_by
  have h1 : (i : ℝ) < dt := by linarith
  have h2 : dt ≤ (Nat.ceil dt : ℝ) := Nat.le_ceil dt
  have h3 : i < Nat.ceil dt := by exact_mod_cast lt_of_lt_of_le h1 h2
  omega

/-- The number of iterations the angular-drift loop performs. -/
def rotCount (dt : ℝ) (i : ℕ) : ℕ :=
  if h : (i : ℝ) + 2 < dt then rotCount dt (i + 5) + 1 else 0
termination_by Nat.ceil dt - i
decreasing_by
  have h1 : (i : ℝ) < dt := by linarith
  have h2 : dt ≤ (Nat.ceil dt : ℝ) := Nat.le_ceil dt
  have h3 : i < Nat.ceil dt := by exact_mod_cast lt_of_lt_of_le h1 h2
  omega

/-- The force loop of `simulate`: threads the position matrix and the
accumulated acceleration matrix through the list of forces, returning the
final position, the accumulated acceleration matrix and the list of updated
forces (each force's duration is aged by `getExertionDuration`). -/
def forcesStep (mass dt : ℝ) :
    List Force → Mat4 → Mat4 → Mat4 × Mat4 × List Force
  | [], pos, acc => (pos, acc, [])
  | f :: rest, pos, acc =>
    let e := f.getExertionDuration dt
    let t := e.1 / 1000
    if t > 0 then
      let a := e.2.getAccelerationVector mass
      let pos2 := Mat.mul4 pos
        (Mat.translation4v (Vec.scaled3 a (1 / 2 * t * t)))
      let acc2 := Mat.mul4 acc (Mat.translation4v (Vec.scaled3 a t))
      let r := forcesStep mass dt rest pos2 acc2
      (r.1, r.2.1, e.2 :: r.2.2)
    else
      let r := forcesStep mass dt rest pos acc
      (r.1, r.2.1, e.2 :: r.2.2)

/-- The torque loop of `simulate`: threads the orientation matrix and the
accumulated angular-acceleration matrix through the list of torques. -/
def torquesStep (mass dt : ℝ) :
    List Torque → Mat4 → Mat4 → Mat4 × Mat4 × List Torque
  | [], orient, acc => (orient, acc, [])
  | tq :: rest, orient, acc =>
    let e := tq.getExertionDuration dt
    let t := e.1 / 1000
    if t > 0 then
      let orient2 := Mat.mul4 orient
        (e.2.getAngularAccelerationMatrixOverTime mass (1 / 2 * t * t))
      let acc2 := Mat.mul4 acc
        (e.2.getAngularAccelerationMatrixOverTime mass (t / 200))
      let r := torquesStep mass dt rest orient2 acc2
      (r.1, r.2.1, e.2 :: r.2.2)
    else
      let r := torquesStep mass dt rest orient acc
      (r.1, r.2.1, e.2 :: r.2.2)

/-- `PhysicalObject.prototype.simulate`: for `dt > 0`, drift the position
by the sampled velocity, integrate the forces (position and velocity),
step the orientation by the angular-velocity matrix once per complete 5 ms
sub-interval, integrate the torques (orientation and angular velocity),
then straighten the velocity matrices and re-orthogonalize the orientation
and angular-velocity matrices (`_correctMatrices`).  All position updates
go through `setPositionMatrix` and all orientation updates through
`setOrientationMatrix`, and `_correctMatrices` runs last, so both inverse
caches end up invalidated; for `dt <= 0` nothing happens. -/
def simulate (s : PhysicalObject) (dt : ℝ) : PhysicalObject :=
  if dt > 0 then
    let pos0 := Mat.mul4 s.positionMatrix
      (Mat.translation4v
        (Vec.scaled3 (Mat.translationVector3 s.velocityMatrix) (dt / 1000)))
    let fr := forcesStep s.mass dt s.forces pos0 Mat.identity4
    let vel1 := Mat.mul4 s.velocityMatrix fr.2.1
    let orient1 := rotIter s.angularVelocityMatrix dt 0 s.orientationMatrix
    let tr := torquesStep s.mass dt s.torques orient1 Mat.identity4
    let angVel1 := Mat.mul4 s.angularVelocityMatrix tr.2.1
    let vel2 := Mat.straightened vel1 0.0001
    let angVel2 := Mat.straightened angVel1 0.00002
    { s with
        positionMatrix := fr.1
        orientationMatrix := Mat.correctedOrthogonal4 tr.1
        velocityMatrix := vel2
        angularVelocityMatrix := Mat.correctedOrthogonal4 angVel2
        forces := fr.2.2
        torques := tr.2.2
        rotationMatrixInverse := none
        modelMatrixInverse := none }
  else s

end PhysicalObject

/-! ## Operation sequences on a `PhysicalObject` (for the cache contract) -/

/-- The mutator/getter calls whose interaction the lazy-cache contract
governs: the two setters and the two cache-filling getters. -/
inductive CacheOp where
  | setPosition (value : Mat4)
  | setOrientation (value : Mat4)
  | readModelInverse
  | readRotationInverse

/-- Performing one call on the object (getters are performed for their
cache-filling side effect). -/
def applyCacheOp (s : PhysicalObject) : CacheOp → PhysicalObject
  | CacheOp.setPosition v => s.setPositionMatrix v
  | CacheOp.setOrientation v => s.setOrientationMatrix v
  | CacheOp.readModelInverse => s.getModelMatrixInverse.2
  | CacheOp.readRotationInverse => s.getRotationMatrixInverse.2

/-- Performing a sequence of calls, oldest first. -/
def applyCacheOps (s : PhysicalObject) (ops : List CacheOp) :
    PhysicalObject :=
  ops.foldl applyCacheOp s

/-- The lazy caches, when filled, hold exactly the inverses of the current
orientation / model matrices. -/
def CacheConsistent (s : PhysicalObject) : Prop :=
  (∀ r, s.rotationMatrixInverse = some r →
    r = Mat.inverseOfRotation4 s.orientationMatrix) ∧
  (∀ m, s.modelMatrixInverse = some m →
    m = Mat.mul4
      (Mat.mul4 (Mat.inverseOfTranslation4 s.positionMatrix)
        (Mat.inverseOfRotation4 s.orientationMatrix))
      (Mat.inverseOfScaling4 s.scalingMatrix))

/-- Following the claim's words: the distance from the object's origin to
the corner of body `b` selected by the sign vector `sigma`, i.e. the length
of `bodyPos + (sigma ⊙ halfDimensions) · R_body` in the parent's unscaled
local space (`R_body` the body's own orientation). -/
def Body.cornerDistance (b : Body) (sigma : Vec3) : ℝ :=
  Vec.length3 (Vec.add3 (Mat.translationVector3 b.positionMatrix)
    (Vec.mulVec3Mat3 (fun i => sigma i * b.getHalfDimensions i)
      (Mat.matrix3from4 b.orientationMatrix)))

/-- A rotation by 45 degrees about the z axis (row-vector convention). -/
def rotZ45 : Mat4 :=
  !![Real.sqrt 2 / 2, Real.sqrt 2 / 2, 0, 0;
     -(Real.sqrt 2 / 2), Real.sqrt 2 / 2, 0, 0;
     0, 0, 1, 0;
     0, 0, 0, 1]

/-- An example body: a 2 x 2 x 0 box centred one unit along x, rotated 45
degrees about the z axis. -/
def rotatedBody : Body :=
  Body.make (Mat.translation4v ![1, 0, 0]) rotZ45 ![2, 2, 0]

end

/-! ## Helper lemmas -/

/-- A freshly constructed object has both caches empty, hence consistent. -/
theorem cacheConsistent_make (mass : ℝ) (p o sc v : Mat4)
    (bodies : List Body) :
    CacheConsistent (PhysicalObject.make mass p o sc v bodies) := by
  constructor <;> intro x hx <;> simp [PhysicalObject.make] at hx

/-- Under a consistent cache, `getRotationMatrixInverse` returns the
inverse of the current orientation and preserves consistency. -/
theorem getRotationMatrixInverse_eq (s : PhysicalObject)
    (h : CacheConsistent s) :
    s.getRotationMatrixInverse.1 =
        Mat.inverseOfRotation4 s.orientationMatrix ∧
      CacheConsistent s.getRotationMatrixInverse.2 := by
  rw [PhysicalObject.getRotationMatrixInverse]
  cases hc : s.rotationMatrixInverse with
  | some r => exact ⟨h.1 r hc, h⟩
  | none =>
    refine ⟨rfl, ⟨?_, ?_⟩⟩
    · intro x hx
      simp at hx
      rw [← hx]
    · intro m hm
      exact h.2 m hm

/-- Under a consistent cache, `getModelMatrixInverse` returns
inverse-translation times inverse-rotation times inverse-scaling of the
current state and preserves consistency. -/
theorem getModelMatrixInverse_eq (s : PhysicalObject)
    (h : CacheConsistent s) :
    s.getModelMatrixInverse.1 =
        Mat.mul4
          (Mat.mul4 (Mat.inverseOfTranslation4 s.positionMatrix)
            (Mat.inverseOfRotation4 s.orientationMatrix))
          (Mat.inverseOfScaling4 s.scalingMatrix) ∧
      CacheConsistent s.getModelMatrixInverse.2 := by
  rw [PhysicalObject.getModelMatrixInverse]
  cases hc : s.modelMatrixInverse with
  | some m => exact ⟨h.2 m hc, h⟩
  | none =>
    have hr := getRotationMatrixInverse_eq s h
    have hrot : s.getRotationMatrixInverse.2.orientationMatrix =
        s.orientationMatrix := by
      rw [PhysicalObject.getRotationMatrixInverse]
      cases s.rotationMatrixInverse <;> rfl
    have hpos : s.getRotationMatrixInverse.2.positionMatrix =
        s.positionMatrix := by
      rw [PhysicalObject.getRotationMatrixInverse]
      cases s.rotationMatrixInverse <;> rfl
    have hsc : s.getRotationMatrixInverse.2.scalingMatrix =
        s.scalingMatrix := by
      rw [PhysicalObject.getRotationMatrixInverse]
      cases s.rotationMatrixInverse <;> rfl
    dsimp only
    refine ⟨by rw [hr.1], ⟨?_, ?_⟩⟩
    · intro x hx
      exact hr.2.1 x hx
    · intro m2 hm
      have h2 := (Option.some.inj hm).symm
      rw [h2, hr.1]
      dsimp only
      rw [hrot, hpos, hsc]

/-- Every `CacheOp` preserves cache consistency. -/
theorem cacheConsistent_applyCacheOp (s : PhysicalObject)
    (h : CacheConsistent s) (op : CacheOp) :
    CacheConsistent (applyCacheOp s op) := by
  cases op with
  | setPosition v =>
    refine ⟨?_, ?_⟩
    · intro r hr
      exact h.1 r hr
    · intro m hm
      simp [applyCacheOp, PhysicalObject.setPositionMatrix] at hm
  | setOrientation v =>
    refine ⟨?_, ?_⟩ <;> intro x hx <;>
      simp [applyCacheOp, PhysicalObject.setOrientationMatrix] at hx
  | readModelInverse => exact (getModelMatrixInverse_eq s h).2
  | readRotationInverse => exact (getRotationMatrixInverse_eq s h).2

/-- Any sequence of calls preserves cache consistency. -/
theorem cacheConsistent_applyCacheOps (s : PhysicalObject)
    (h : CacheConsistent s) (ops : List CacheOp) :
    CacheConsistent (applyCacheOps s ops) := by
  induction ops generalizing s with
  | nil => exact h
  | cons op rest ih =>
    exact ih (applyCacheOp s op) (cacheConsistent_applyCacheOp s h op)

/-- Renewing a freshly constructed force with new parameters yields exactly
the force the constructor would build from those parameters. -/
theorem Force.renew_make (i : String) (a : ℝ) (b : Vec3) (c : ℝ)
    (a2 : ℝ) (b2 : Vec3) (c2 : ℝ) :
    (Force.make i a b c).renew a2 b2 c2 = Force.make i a2 b2 c2 := rfl

/-- `addOrRenewForceList` appends when no force in the list matches. -/
theorem addOrRenewForceList_no_match (l : List Force) (forceID : String)
    (st : ℝ) (d : Vec3) (du : ℝ) (h : ∀ f ∈ l, f.id ≠ forceID) :
    PhysicalObject.addOrRenewForceList l forceID st d du =
      l ++ [Force.make forceID st d du] := by
  induction l with
  | nil => rfl
  | cons f rest ih =>
    have hf : f.id ≠ forceID := h f (List.mem_cons_self f rest)
    simp only [PhysicalObject.addOrRenewForceList, if_neg hf,
      List.cons_append, List.cons.injEq, true_and]
    exact ih fun g hg => h g (List.mem_cons_of_mem f hg)

/-- `addOrRenewForceList` renews the first match and leaves everything else
untouched. -/
theorem addOrRenewForceList_first_match (l₁ : List Force) (f : Force)
    (l₂ : List Force) (forceID : String) (st : ℝ) (d : Vec3) (du : ℝ)
    (hf : f.id = forceID) (h₁ : ∀ g ∈ l₁, g.id ≠ forceID) :
    PhysicalObject.addOrRenewForceList (l₁ ++ f :: l₂) forceID st d du =
      l₁ ++ f.renew st d du :: l₂ := by
  induction l₁ with
  | nil => simp only [List.nil_append, PhysicalObject.addOrRenewForceList,
      if_pos hf]
  | cons g rest ih =>
    have hg : g.id ≠ forceID := h₁ g (List.mem_cons_self g rest)
    simp only [List.cons_append, PhysicalObject.addOrRenewForceList,
      if_neg hg, List.cons.injEq, true_and]
    exact ih fun x hx => h₁ x (List.mem_cons_of_mem g hx)

/-! ## Claim theorems -/

/-- C1, counterexample: for the force `Force.make "f" 1 ![1, 0, 0] 0.1`
(stored remaining duration exactly 0.1 ms, which is not below the epsilon)
and `dt = 10`, the claim predicts a returned exertion of
`min duration dt = 0.1` and a stored duration decremented to `0.1 - 10`;
the code returns `0` and leaves the duration unchanged. -/
theorem exertionDuration_claim_false :
    ¬ (((Force.make "f" 1 ![1, 0, 0] 0.1).getExertionDuration 10).1 =
        (if (Force.make "f" 1 ![1, 0, 0] 0.1).duration < 0.1 then 0
          else min (Force.make "f" 1 ![1, 0, 0] 0.1).duration 10) ∧
      ((Force.make "f" 1 ![1, 0, 0] 0.1).getExertionDuration 10).2.duration =
        (Force.make "f" 1 ![1, 0, 0] 0.1).duration - 10) := by
  intro h
  have h1 := h.1
  norm_num [Force.getExertionDuration, Force.make] at h1

/-- C1 (amended): `getExertionDuration(dt)` (for `Force` and for `Torque`)
returns `min(duration, dt)` when the stored remaining duration exceeds the
0.1 ms epsilon and `0` otherwise; the stored duration is decremented by
`dt` exactly when it exceeds the epsilon, and is left unchanged in the
expired branch. -/
theorem exertionDuration_branches (f : Force) (tq : Torque) (dt : ℝ) :
    ((f.getExertionDuration dt).1 =
        if 0.1 < f.duration then min f.duration dt else 0) ∧
    ((f.getExertionDuration dt).2.duration =
        if 0.1 < f.duration then f.duration - dt else f.duration) ∧
    ((tq.getExertionDuration dt).1 =
        if 0.1 < tq.duration then min tq.duration dt else 0) ∧
    ((tq.getExertionDuration dt).2.duration =
        if 0.1 < tq.duration then tq.duration - dt else tq.duration) := by
  unfold Force.getExertionDuration Torque.getExertionDuration
  refine ⟨?_, ?_, ?_, ?_⟩ <;> split_ifs <;> rfl

/-- C2: `Torque.prototype.renew` stores the passed axis without
normalizing it, contradicting the field's own documentation ("Always
normalized"), the behaviour of the `Torque` constructor (which does
normalize, last conjunct) and `Force.prototype.renew`.  The axis
`![2, 0, 0]` has length 2 after `renew`. -/
theorem torque_renew_skips_normalization :
    ((Torque.make "t" 1 ![1, 0, 0] 100).renew 2 ![2, 0, 0] 50).axis =
        ![2, 0, 0] ∧
      Vec.length3 ![2, 0, 0] = 2 ∧
      (Torque.make "t" 2 ![2, 0, 0] 50).axis = ![1, 0, 0] := by
  have hlen : Vec.length3 ![2, 0, 0] = 2 := by
    rw [Vec.length3]
    norm_num
    rw [show (4 : ℝ) = 2 ^ 2 by norm_num]
    exact Real.sqrt_sq (by norm_num)
  refine ⟨rfl, hlen, ?_⟩
  funext i
  fin_cases i <;>
    simp [Torque.make, Vec.normal3, hlen]

/-- C9: `simulate` with `dt <= 0` is a silent no-op: the entire state
(position, orientation, scaling, velocity, angular velocity, forces,
torques, bodies, caches, body size) is returned unchanged. -/
theorem simulate_nonpos_dt_noop (s : PhysicalObject) (dt : ℝ)
    (h : dt ≤ 0) : s.simulate dt = s := by
  unfold PhysicalObject.simulate
  rw [if_neg (not_lt.mpr h)]

/-- Witness for C9 at a concrete object and `dt = 0`. -/
theorem simulate_nonpos_dt_noop_witness :
    (PhysicalObject.make 1 1 1 1 1 []).simulate 0 =
      PhysicalObject.make 1 1 1 1 1 [] :=
  simulate_nonpos_dt_noop (PhysicalObject.make 1 1 1 1 1 []) 0 (by norm_num)

/-- C10: `PhysicalObject.checkHit` pushes the homogeneous coordinate `1`
onto the caller's array, so the array afterwards is the original with `1`
appended and its length has grown by one (a 3-vector becomes a 4-vector,
and every repeated call appends one further element). -/
theorem checkHit_mutates_argument (s : PhysicalObject) (v : List ℝ) :
    (s.checkHit v).2.2 = v ++ [1] ∧
      (s.checkHit v).2.2.length = v.length + 1 := by
  have h : (s.checkHit v).2.2 = v ++ [1] := by
    rw [PhysicalObject.checkHit]
    split <;> rfl
  exact ⟨h, by rw [h]; simp⟩

/-- C7: `addOrRenewForce` appends a single new force when no stored force
carries the given ID; when one does, it renews the first such force and
leaves every other entry (including later ones with the same ID) untouched,
keeping the list length unchanged; and two consecutive calls with the same
ID on an object with no prior force of that ID leave exactly one force
carrying the latest strength, direction and duration. -/
theorem addOrRenewForce_spec (s : PhysicalObject) (forceID : String)
    (strength : ℝ) (direction : Vec3) (duration : ℝ) :
    ((∀ f ∈ s.forces, f.id ≠ forceID) →
      (s.addOrRenewForce forceID strength direction duration).forces =
        s.forces ++ [Force.make forceID strength direction duration]) ∧
    (∀ l₁ f l₂, s.forces = l₁ ++ f :: l₂ → f.id = forceID →
      (∀ g ∈ l₁, g.id ≠ forceID) →
      (s.addOrRenewForce forceID strength direction duration).forces =
          l₁ ++ f.renew strength direction duration :: l₂ ∧
        (s.addOrRenewForce forceID strength direction duration).forces.length
          = s.forces.length) ∧
    ((∀ f ∈ s.forces, f.id ≠ forceID) → ∀ st2 d2 du2,
      ((s.addOrRenewForce forceID strength direction duration).addOrRenewForce
            forceID st2 d2 du2).forces =
        s.forces ++ [Force.make forceID st2 d2 du2]) := by
  refine ⟨?_, ?_, ?_⟩
  · intro h
    exact addOrRenewForceList_no_match s.forces forceID strength direction
      duration h
  · intro l₁ f l₂ hs hf h₁
    have he : (s.addOrRenewForce forceID strength direction duration).forces =
        l₁ ++ f.renew strength direction duration :: l₂ := by
      show PhysicalObject.addOrRenewForceList s.forces forceID strength
          direction duration = _
      rw [hs]
      exact addOrRenewForceList_first_match l₁ f l₂ forceID strength
        direction duration hf h₁
    refine ⟨he, ?_⟩
    rw [he, hs]
    simp
  · intro h st2 d2 du2
    have h1 : (s.addOrRenewForce forceID strength direction duration).forces =
        s.forces ++ [Force.make forceID strength direction duration] :=
      addOrRenewForceList_no_match s.forces forceID strength direction
        duration h
    show PhysicalObject.addOrRenewForceList _ forceID st2 d2 du2 = _
    rw [h1]
    rw [show s.forces ++ [Force.make forceID strength direction duration] =
        s.forces ++ Force.make forceID strength direction duration :: [] from
      rfl]
    rw [addOrRenewForceList_first_match s.forces
      (Force.make forceID strength direction duration) [] forceID st2 d2 du2
      rfl h]
    rw [Force.renew_make]

/-- Witness for C7: two consecutive `addOrRenewForce "thrust"` calls on a
freshly constructed object leave exactly the one latest force. -/
theorem addOrRenewForce_spec_witness :
    (((PhysicalObject.make 1 1 1 1 1 []).addOrRenewForce "thrust" 1
          ![1, 0, 0] 100).addOrRenewForce "thrust" 2 ![0, 1, 0] 200).forces =
      (PhysicalObject.make 1 1 1 1 1 []).forces ++
        [Force.make "thrust" 2 ![0, 1, 0] 200] :=
  (addOrRenewForce_spec (PhysicalObject.make 1 1 1 1 1 []) "thrust" 1
      ![1, 0, 0] 100).2.2
    (by intro f hf; simp [PhysicalObject.make] at hf) 2 ![0, 1, 0] 200

/-- C8: after any sequence of `setPositionMatrix`, `setOrientationMatrix`
and cache-filling getter calls on a constructed `PhysicalObject`,
`getModelMatrixInverse` returns inverse-translation composed with
inverse-rotation composed with inverse-scaling of the *current* position,
orientation and scaling matrices, and `getRotationMatrixInverse` returns
the inverse of the *current* orientation — never a stale cached value. -/
theorem inverse_caches_consistent (mass : ℝ) (p o sc v : Mat4)
    (bodies : List Body) (ops : List CacheOp) :
    (applyCacheOps (PhysicalObject.make mass p o sc v bodies)
          ops).getModelMatrixInverse.1 =
        Mat.mul4
          (Mat.mul4
            (Mat.inverseOfTranslation4
              (applyCacheOps (PhysicalObject.make mass p o sc v bodies)
                ops).positionMatrix)
            (Mat.inverseOfRotation4
              (applyCacheOps (PhysicalObject.make mass p o sc v bodies)
                ops).orientationMatrix))
          (Mat.inverseOfScaling4
            (applyCacheOps (PhysicalObject.make mass p o sc v bodies)
              ops).scalingMatrix) ∧
      (applyCacheOps (PhysicalObject.make mass p o sc v bodies)
          ops).getRotationMatrixInverse.1 =
        Mat.inverseOfRotation4
          (applyCacheOps (PhysicalObject.make mass p o sc v bodies)
            ops).orientationMatrix := by
  have h := cacheConsistent_applyCacheOps
    (PhysicalObject.make mass p o sc v bodies)
    (cacheConsistent_make mass p o sc v bodies) ops
  exact ⟨(getModelMatrixInverse_eq _ h).1, (getRotationMatrixInverse_eq _ h).1⟩

/-- Scaling a 3-vector by 1 changes nothing. -/
theorem Vec.scaled3_one (v : Vec3) : Vec.scaled3 v 1 = v :=
  funext fun i => mul_one (v i)

/-- `mul4` with the identity on the left. -/
theorem Mat.identity4_mul4 (m : Mat4) : Mat.mul4 Mat.identity4 m = m := by
  rw [Mat.mul4, Mat.identity4, one_mul]

/-- `mul4` with the identity on the right. -/
theorem Mat.mul4_identity4 (m : Mat4) : Mat.mul4 m Mat.identity4 = m := by
  rw [Mat.mul4, Mat.identity4, mul_one]

/-- The inverse of the identity translation is the identity. -/
theorem Mat.inverseOfTranslation4_one : Mat.inverseOfTranslation4 1 = 1 := by
  unfold Mat.inverseOfTranslation4
  ext i j
  fin_cases i <;> fin_cases j <;>
    norm_num [Matrix.one_apply, Matrix.vecHead, Matrix.vecTail, Fin.ext_iff]
      <;> decide

/-- The inverse of the identity rotation is the identity. -/
theorem Mat.inverseOfRotation4_one : Mat.inverseOfRotation4 1 = 1 := by
  rw [Mat.inverseOfRotation4, Matrix.transpose_one]

/-- The inverse of the identity scaling is the identity. -/
theorem Mat.inverseOfScaling4_one : Mat.inverseOfScaling4 1 = 1 := by
  unfold Mat.inverseOfScaling4
  ext i j
  fin_cases i <;> fin_cases j <;>
    norm_num [Matrix.one_apply, Matrix.vecHead, Matrix.vecTail, Fin.ext_iff]

/-- A translation matrix with all-zero components is the identity. -/
theorem Mat.translation4v_eq_one (v : Vec3) (h : ∀ i, v i = 0) :
    Mat.translation4v v = 1 := by
  unfold Mat.translation4v
  ext i j
  fin_cases i <;> fin_cases j <;>
    norm_num [Matrix.one_apply, Matrix.vecHead, Matrix.vecTail, Fin.ext_iff,
      h]

/-- The identity matrix is a rigid rotation. -/
theorem Mat.isRigidRotation_one : Mat.IsRigidRotation 1 := by
  refine ⟨?_, ?_, ?_, ?_, ?_, ?_, ?_, ?_⟩ <;>
    simp [Matrix.one_apply]

/-- Rigid rotations are closed under multiplication. -/
theorem Mat.isRigidRotation_mul {a b : Mat4} (ha : Mat.IsRigidRotation a)
    (hb : Mat.IsRigidRotation b) : Mat.IsRigidRotation (a * b) := by
  obtain ⟨ha0, ha1, ha2, ha3, ha03, ha13, ha23, hao⟩ := ha
  obtain ⟨hb0, hb1, hb2, hb3, hb03, hb13, hb23, hbo⟩ := hb
  refine ⟨?_, ?_, ?_, ?_, ?_, ?_, ?_, ?_⟩
  · simp [Matrix.mul_apply, Fin.sum_univ_four, ha0, ha1, ha2, ha3, hb0]
  · simp [Matrix.mul_apply, Fin.sum_univ_four, ha0, ha1, ha2, ha3, hb1]
  · simp [Matrix.mul_apply, Fin.sum_univ_four, ha0, ha1, ha2, ha3, hb2]
  · simp [Matrix.mul_apply, Fin.sum_univ_four, ha0, ha1, ha2, ha3, hb3]
  · simp [Matrix.mul_apply, Fin.sum_univ_four, hb03, hb13, hb23, hb3, ha03]
  · simp [Matrix.mul_apply, Fin.sum_univ_four, hb03, hb13, hb23, hb3, ha13]
  · simp [Matrix.mul_apply, Fin.sum_univ_four, hb03, hb13, hb23, hb3, ha23]
  · rw [Matrix.transpose_mul, mul_assoc, ← mul_assoc b, hbo, one_mul, hao]

/-- Powers of a rigid rotation are rigid rotations. -/
theorem Mat.isRigidRotation_pow {a : Mat4} (h : Mat.IsRigidRotation a) :
    ∀ n : ℕ, Mat.IsRigidRotation (a ^ n)
  | 0 => by rw [pow_zero]; exact Mat.isRigidRotation_one
  | n + 1 => by
    rw [pow_succ]
    exact Mat.isRigidRotation_mul (Mat.isRigidRotation_pow h n) h

/-- `correctedOrthogonal4` fixes rigid rotations (in exact arithmetic the
re-orthogonalization pass has nothing to correct). -/
theorem Mat.correctedOrthogonal4_eq_self {m : Mat4}
    (h : Mat.IsRigidRotation m) : Mat.correctedOrthogonal4 m = m := by
  rw [Mat.correctedOrthogonal4, if_pos h]

/-- Unrolling the angular-drift loop for `dt = 1000`: starting the counter
at `5 * j` with `j + k = 200` leaves `k` compositions to perform. -/
theorem rotIter_unroll_1000 (av : Mat4) :
    ∀ (k j : ℕ), j + k = 200 → ∀ o : Mat4,
      PhysicalObject.rotIter av 1000 (5 * j) o = o * av ^ k := by
  intro k
  induction k with
  | zero =>
    intro j hj o
    have hj2 : j = 200 := by omega
    subst hj2
    rw [PhysicalObject.rotIter, dif_neg (by push_cast; norm_num), pow_zero,
      mul_one]
  | succ n ih =>
    intro j hj o
    have hj199 : j ≤ 199 := by omega
    have hcond : ((5 * j : ℕ) : ℝ) + 2 < 1000 := by
      have : (j : ℝ) ≤ 199 := by exact_mod_cast hj199
      push_cast
      linarith
    rw [PhysicalObject.rotIter, dif_pos hcond]
    rw [show 5 * j + 5 = 5 * (j + 1) by ring]
    rw [ih (j + 1) (by omega) (Mat.mul4 o av)]
    rw [Mat.mul4, mul_assoc, ← pow_succ']

/-- The angular-drift loop performs exactly 200 iterations for `dt = 1000`:
counting from `5 * j` with `j + k = 200` yields `k`. -/
theorem rotCount_unroll_1000 :
    ∀ (k j : ℕ), j + k = 200 →
      PhysicalObject.rotCount 1000 (5 * j) = k := by
  intro k
  induction k with
  | zero =>
    intro j hj
    have hj2 : j = 200 := by omega
    subst hj2
    rw [PhysicalObject.rotCount, dif_neg (by push_cast; norm_num)]
  | succ n ih =>
    intro j hj
    have hj199 : j ≤ 199 := by omega
    have hcond : ((5 * j : ℕ) : ℝ) + 2 < 1000 := by
      have : (j : ℝ) ≤ 199 := by exact_mod_cast hj199
      push_cast
      linarith
    rw [PhysicalObject.rotCount, dif_pos hcond]
    rw [show 5 * j + 5 = 5 * (j + 1) by ring]
    rw [ih (j + 1) (by omega)]

/-- C6: on an object with no forces and no torques (and proper rigid
orientation and angular-velocity matrices), `simulate(1000)` sets the
position to `position ∘ translation(velocity · 1 s)` and composes the
orientation with exactly 200 applications of the angular-velocity matrix;
the 5 ms micro-interval loop `(i = 0; i + 2 < dt; i += 5)` performs exactly
200 iterations for `dt = 1000`. -/
theorem simulate_zero_force_drift (s : PhysicalObject)
    (hf : s.forces = []) (ht : s.torques = [])
    (ho : Mat.IsRigidRotation s.orientationMatrix)
    (hav : Mat.IsRigidRotation s.angularVelocityMatrix) :
    (s.simulate 1000).positionMatrix =
        Mat.mul4 s.positionMatrix
          (Mat.translation4v (Mat.translationVector3 s.velocityMatrix)) ∧
      (s.simulate 1000).orientationMatrix =
        s.orientationMatrix * s.angularVelocityMatrix ^ 200 ∧
      PhysicalObject.rotCount 1000 0 = 200 := by
  have hcount : PhysicalObject.rotCount 1000 0 = 200 := by
    have h := rotCount_unroll_1000 200 0 (by norm_num)
    simpa using h
  have hiter : PhysicalObject.rotIter s.angularVelocityMatrix 1000 0
      s.orientationMatrix =
      s.orientationMatrix * s.angularVelocityMatrix ^ 200 := by
    have h := rotIter_unroll_1000 s.angularVelocityMatrix 200 0 (by norm_num)
      s.orientationMatrix
    simpa using h
  rw [PhysicalObject.simulate, if_pos (by norm_num : (1000 : ℝ) > 0), hf, ht]
  dsimp only [PhysicalObject.forcesStep, PhysicalObject.torquesStep]
  refine ⟨?_, ?_, hcount⟩
  · rw [show (1000 : ℝ) / 1000 = 1 by norm_num, Vec.scaled3_one]
  · rw [hiter]
    exact Mat.correctedOrthogonal4_eq_self
      (Mat.isRigidRotation_mul ho (Mat.isRigidRotation_pow hav 200))

/-- Witness for C6 at a freshly constructed object (identity matrices). -/
theorem simulate_zero_force_drift_witness :
    ((PhysicalObject.make 1 1 1 1 1 []).simulate 1000).positionMatrix =
        Mat.mul4 (PhysicalObject.make 1 1 1 1 1 []).positionMatrix
          (Mat.translation4v (Mat.translationVector3
            (PhysicalObject.make 1 1 1 1 1 []).velocityMatrix)) ∧
      ((PhysicalObject.make 1 1 1 1 1 []).simulate 1000).orientationMatrix =
        (PhysicalObject.make 1 1 1 1 1 []).orientationMatrix *
          (PhysicalObject.make 1 1 1 1 1 []).angularVelocityMatrix ^ 200 ∧
      PhysicalObject.rotCount 1000 0 = 200 :=
  simulate_zero_force_drift (PhysicalObject.make 1 1 1 1 1 []) rfl rfl
    Mat.isRigidRotation_one Mat.isRigidRotation_one

/-- C5 (amended): for an object whose force list holds exactly one active
force (`duration > 0.1` ms) with remaining duration at least `dt`, and
`dt > 0`, `simulate(dt)` advances the position by the old velocity's drift
and then by the classical `½·a·t²` contribution (`a = direction *
strength / mass`, `t = dt / 1000` s), and the new velocity matrix is the
old one composed with the accumulated acceleration matrix
`translation(a·t)` and then passed through the 0.0001-threshold
straightening snap of the numerical-hygiene step. -/
theorem simulate_single_force (s : PhysicalObject) (f : Force) (dt : ℝ)
    (hf : s.forces = [f]) (hdur : 0.1 < f.duration) (hge : dt ≤ f.duration)
    (hdt : 0 < dt) :
    (s.simulate dt).positionMatrix =
        Mat.mul4
          (Mat.mul4 s.positionMatrix
            (Mat.translation4v
              (Vec.scaled3 (Mat.translationVector3 s.velocityMatrix)
                (dt / 1000))))
          (Mat.translation4v
            (Vec.scaled3 (Vec.scaled3 f.direction (f.strength / s.mass))
              (1 / 2 * (dt / 1000) * (dt / 1000)))) ∧
      (s.simulate dt).velocityMatrix =
        Mat.straightened
          (Mat.mul4 s.velocityMatrix
            (Mat.translation4v
              (Vec.scaled3 (Vec.scaled3 f.direction (f.strength / s.mass))
                (dt / 1000))))
          0.0001 := by
  have he : f.getExertionDuration dt =
      (dt, { f with duration := f.duration - dt }) := by
    rw [Force.getExertionDuration, if_pos hdur, min_eq_right hge]
  rw [PhysicalObject.simulate, if_pos hdt, hf]
  dsimp only [PhysicalObject.forcesStep]
  rw [he]
  dsimp only
  rw [if_pos (by positivity : dt / 1000 > 0)]
  dsimp only [PhysicalObject.forcesStep, Force.getAccelerationVector]
  exact ⟨rfl, by rw [Mat.identity4_mul4]⟩

/-- C5, counterexample: on an object of mass 1 (identity transforms) whose
velocity is a translation by `0.00005` along x, with exactly one active
force of strength 0 and duration 1000 ms ≥ dt, `simulate(1000)` does NOT
leave the velocity equal to the old velocity composed with the accumulated
acceleration matrix `translation(a·t)`: the numerical-hygiene straightening
pass snaps the `0.00005` entry (below the 0.0001 threshold) to `0`. -/
theorem simulate_velocity_claim_false :
    ¬ ((((PhysicalObject.make 1 1 1 1
            (Mat.translation4v ![0.00005, 0, 0]) []).addForce
              (Force.make "f" 0 ![1, 0, 0] 1000)).simulate
                1000).velocityMatrix =
        Mat.mul4
          (((PhysicalObject.make 1 1 1 1
            (Mat.translation4v ![0.00005, 0, 0]) []).addForce
              (Force.make "f" 0 ![1, 0, 0] 1000)).velocityMatrix)
          (Mat.translation4v
            (Vec.scaled3
              (Vec.scaled3 (Force.make "f" 0 ![1, 0, 0] 1000).direction
                ((Force.make "f" 0 ![1, 0, 0] 1000).strength /
                  ((PhysicalObject.make 1 1 1 1
                    (Mat.translation4v ![0.00005, 0, 0]) []).addForce
                      (Force.make "f" 0 ![1, 0, 0] 1000)).mass))
              (1000 / 1000)))) := by
  intro hEq
  have h30 := congrFun (congrFun hEq 3) 0
  rw [PhysicalObject.simulate, if_pos (by norm_num : (1000 : ℝ) > 0)] at h30
  dsimp only at h30
  norm_num [PhysicalObject.make, PhysicalObject.addForce,
    PhysicalObject.forcesStep, Force.getExertionDuration,
    Force.getAccelerationVector, Force.make, Mat.straightened, Mat.mul4,
    Mat.identity4, Mat.translation4v, Vec.scaled3, Vec.normal3, Vec.length3,
    Matrix.mul_apply, Fin.sum_univ_four, Matrix.vecHead, Matrix.vecTail,
    Matrix.of_apply] at h30
  rw [abs_of_nonneg (by norm_num : (0 : ℝ) ≤ 1 / 20000)] at h30
  norm_num at h30

/-- Witness for C5 at a concrete object (mass 1, identity transforms, one
"thrust" force of strength 3 and duration 500 ms) and `dt = 250`. -/
theorem simulate_single_force_witness :
    ((((PhysicalObject.make 1 1 1 1 1 []).addForce
          (Force.make "thrust" 3 ![1, 0, 0] 500)).simulate
            250).positionMatrix =
        Mat.mul4
          (Mat.mul4
            ((PhysicalObject.make 1 1 1 1 1 []).addForce
              (Force.make "thrust" 3 ![1, 0, 0] 500)).positionMatrix
            (Mat.translation4v
              (Vec.scaled3
                (Mat.translationVector3
                  ((PhysicalObject.make 1 1 1 1 1 []).addForce
                    (Force.make "thrust" 3 ![1, 0, 0] 500)).velocityMatrix)
                (250 / 1000))))
          (Mat.translation4v
            (Vec.scaled3
              (Vec.scaled3 (Force.make "thrust" 3 ![1, 0, 0] 500).direction
                ((Force.make "thrust" 3 ![1, 0, 0] 500).strength /
                  ((PhysicalObject.make 1 1 1 1 1 []).addForce
                    (Force.make "thrust" 3 ![1, 0, 0] 500)).mass))
              (1 / 2 * (250 / 1000) * (250 / 1000))))) ∧
      (((PhysicalObject.make 1 1 1 1 1 []).addForce
          (Force.make "thrust" 3 ![1, 0, 0] 500)).simulate
            250).velocityMatrix =
        Mat.straightened
          (Mat.mul4
            ((PhysicalObject.make 1 1 1 1 1 []).addForce
              (Force.make "thrust" 3 ![1, 0, 0] 500)).velocityMatrix
            (Mat.translation4v
              (Vec.scaled3
                (Vec.scaled3 (Force.make "thrust" 3 ![1, 0, 0] 500).direction
                  ((Force.make "thrust" 3 ![1, 0, 0] 500).strength /
                    ((PhysicalObject.make 1 1 1 1 1 []).addForce
                      (Force.make "thrust" 3 ![1, 0, 0] 500)).mass))
                (250 / 1000))))
          0.0001 :=
  simulate_single_force
    ((PhysicalObject.make 1 1 1 1 1 []).addForce
      (Force.make "thrust" 3 ![1, 0, 0] 500))
    (Force.make "thrust" 3 ![1, 0, 0] 500) 250 rfl
    (by norm_num [Force.make]) (by norm_num [Force.make]) (by norm_num)

/-- The body loop returns the short-circuit OR of the per-body hit tests,
in list order. -/
theorem bodiesLoop_fst (r : Vec4) (l : List Body) :
    (PhysicalObject.bodiesLoop r l).1 = l.any fun b => b.checkHit r := by
  induction l with
  | nil => rfl
  | cons b rest ih =>
    rw [PhysicalObject.bodiesLoop]
    by_cases hb : b.checkHit r = true
    · rw [if_pos hb]
      simp [hb]
    · rw [if_neg hb]
      simp only [Bool.not_eq_true] at hb
      simp [hb, ih]

/-- The body loop tests zero bodies exactly when the body list is empty. -/
theorem bodiesLoop_snd_eq_zero (r : Vec4) (l : List Body) :
    (PhysicalObject.bodiesLoop r l).2 = 0 ↔ l = [] := by
  cases l with
  | nil => simp [PhysicalObject.bodiesLoop]
  | cons b rest =>
    rw [PhysicalObject.bodiesLoop]
    split_ifs <;> simp

/-- C3 (amended): `checkHit(point)` transforms the pushed point by the
inverse model matrix and returns `false` immediately, invoking no Body's
`checkHit`, exactly when NOT all three transformed coordinates are strictly
below the cached bounding radius in absolute value; when all three are
strictly below it, the result is the short-circuit OR of the per-body hit
tests in list order, and at least one body is tested whenever the body list
is nonempty. -/
theorem checkHit_characterization (s : PhysicalObject) (pt : List ℝ) :
    (¬ (|Vec.mulVec4Mat4 (fun i => (pt ++ [1]).getD i 0)
            s.getModelMatrixInverse.1 0| < s.bodySize ∧
        |Vec.mulVec4Mat4 (fun i => (pt ++ [1]).getD i 0)
            s.getModelMatrixInverse.1 1| < s.bodySize ∧
        |Vec.mulVec4Mat4 (fun i => (pt ++ [1]).getD i 0)
            s.getModelMatrixInverse.1 2| < s.bodySize) →
      s.checkHit pt = (false, 0, pt ++ [1])) ∧
    ((|Vec.mulVec4Mat4 (fun i => (pt ++ [1]).getD i 0)
            s.getModelMatrixInverse.1 0| < s.bodySize ∧
        |Vec.mulVec4Mat4 (fun i => (pt ++ [1]).getD i 0)
            s.getModelMatrixInverse.1 1| < s.bodySize ∧
        |Vec.mulVec4Mat4 (fun i => (pt ++ [1]).getD i 0)
            s.getModelMatrixInverse.1 2| < s.bodySize) →
      (s.checkHit pt).1 = (s.bodies.any fun b =>
          b.checkHit (Vec.mulVec4Mat4 (fun i => (pt ++ [1]).getD i 0)
            s.getModelMatrixInverse.1)) ∧
        ((s.checkHit pt).2.1 = 0 ↔ s.bodies = [])) := by
  constructor
  · intro hcond
    rw [PhysicalObject.checkHit]
    dsimp only
    rw [if_neg hcond]
  · intro hcond
    rw [PhysicalObject.checkHit]
    dsimp only
    rw [if_pos hcond]
    exact ⟨bodiesLoop_fst _ s.bodies, bodiesLoop_snd_eq_zero _ s.bodies⟩

/-- Numeric fact: the bounding radius `√3` of the example body is below 2. -/
theorem sqrt_three_lt_two : Real.sqrt 3 < 2 := by
  rw [Real.sqrt_lt' (by norm_num : (0 : ℝ) < 2)]
  norm_num


/-- The identity matrix has zero translation components. -/
theorem Mat.translationVector3_one : Mat.translationVector3 1 = ![0, 0, 0] := by
  funext i
  fin_cases i <;>
    norm_num [Mat.translationVector3, Matrix.one_apply, Matrix.vecHead,
      Matrix.vecTail] <;> decide

/-- The 3x3 part of the 4x4 identity is the 3x3 identity. -/
theorem Mat.matrix3from4_one : Mat.matrix3from4 1 = 1 := by
  ext i j
  simp [Mat.matrix3from4, Matrix.one_apply, Fin.castSucc_inj]

set_option linter.unnecessarySeqFocus false in
/-- Multiplying a 3-vector by the identity matrix changes nothing. -/
theorem Vec.mulVec3Mat3_one (v : Vec3) : Vec.mulVec3Mat3 v 1 = v := by
  funext j
  fin_cases j <;>
    norm_num [Vec.mulVec3Mat3, Matrix.one_apply, Matrix.vecHead,
      Matrix.vecTail, Fin.ext_iff] <;> rfl

/-- The example object (one axis-aligned 2x2x2 body at the origin, identity
transforms) has bounding radius `√3`. -/
theorem bodySize_example :
    (PhysicalObject.make 1 1 1 1 1 [Body.make 1 1 ![2, 2, 2]]).bodySize =
      Real.sqrt 3 := by
  show PhysicalObject.calculateBodySize 1 [Body.make 1 1 ![2, 2, 2]] =
    Real.sqrt 3
  rw [PhysicalObject.calculateBodySize]
  dsimp only [List.foldl]
  rw [PhysicalObject.bodySizeStep]
  have h1 : Mat.translationVector3 (Body.make 1 1 ![2, 2, 2]).positionMatrix
      = ![0, 0, 0] := Mat.translationVector3_one
  have h2 : Vec.mulVec3Mat3 (Body.make 1 1 ![2, 2, 2]).getHalfDimensions
      (Mat.matrix3from4
        (Mat.mul4 1 (Body.make 1 1 ![2, 2, 2]).orientationMatrix)) =
      ![1, 1, 1] := by
    have hm : Mat.mul4 1 (Body.make 1 1 ![2, 2, 2]).orientationMatrix =
        (1 : Mat4) := by
      rw [Mat.mul4, one_mul]
      rfl
    rw [hm, Mat.matrix3from4_one, Vec.mulVec3Mat3_one]
    funext i
    fin_cases i <;> norm_num [Body.make, Body.getHalfDimensions]
  rw [h1, h2]
  norm_num [Vec.add3, Vec.length3, Matrix.vecHead, Matrix.vecTail,
    max_self, max_eq_right (Real.sqrt_nonneg 3)]

/-- The example object's inverse model matrix is the identity. -/
theorem modelInv_example :
    (PhysicalObject.make 1 1 1 1 1
      [Body.make 1 1 ![2, 2, 2]]).getModelMatrixInverse.1 = 1 := by
  have h := (getModelMatrixInverse_eq _
    (cacheConsistent_make 1 1 1 1 1 [Body.make 1 1 ![2, 2, 2]])).1
  rw [h]
  show Mat.mul4 (Mat.mul4 (Mat.inverseOfTranslation4 1)
    (Mat.inverseOfRotation4 1)) (Mat.inverseOfScaling4 1) = 1
  rw [Mat.inverseOfTranslation4_one, Mat.inverseOfRotation4_one,
    Mat.inverseOfScaling4_one, Mat.mul4, Mat.mul4, one_mul, one_mul]

/-- Transforming the pushed example point `[2,0,0,1]` by the identity gives
back its coordinates. -/
theorem relPos_example :
    Vec.mulVec4Mat4 (fun i => (([2, 0, 0] : List ℝ) ++ [1]).getD i 0)
      (1 : Mat4) = ![2, 0, 0, 1] := by
  have hv : (fun i : Fin 4 => (([2, 0, 0] : List ℝ) ++ [1]).getD i 0) =
      ![2, 0, 0, 1] := by
    funext i
    fin_cases i <;> rfl
  rw [hv]
  funext j
  fin_cases j <;>
    norm_num [Vec.mulVec4Mat4, Matrix.one_apply, Matrix.vecHead,
      Matrix.vecTail, Fin.ext_iff] <;> decide

/-- C3, counterexample: for the example object (bounding radius `√3`) and
the point `[2, 0, 0]` (transformed coordinates `(2, 0, 0)`), the code takes
the immediate-false path and tests no Body (since `|2| ≥ √3`), yet the
claim's condition — all three coordinates exceed the radius — is false
(`|0| < √3`), so the claimed "exactly when" equivalence fails. -/
theorem checkHit_fastpath_claim_false :
    ¬ ((((PhysicalObject.make 1 1 1 1 1 [Body.make 1 1 ![2, 2, 2]]).checkHit
            [2, 0, 0]).1 = false ∧
        ((PhysicalObject.make 1 1 1 1 1 [Body.make 1 1 ![2, 2, 2]]).checkHit
            [2, 0, 0]).2.1 = 0) ↔
      ((PhysicalObject.make 1 1 1 1 1 [Body.make 1 1 ![2, 2, 2]]).bodySize <
          |Vec.mulVec4Mat4 (fun i => (([2, 0, 0] : List ℝ) ++ [1]).getD i 0)
            (PhysicalObject.make 1 1 1 1 1
              [Body.make 1 1 ![2, 2, 2]]).getModelMatrixInverse.1 0| ∧
        (PhysicalObject.make 1 1 1 1 1 [Body.make 1 1 ![2, 2, 2]]).bodySize <
          |Vec.mulVec4Mat4 (fun i => (([2, 0, 0] : List ℝ) ++ [1]).getD i 0)
            (PhysicalObject.make 1 1 1 1 1
              [Body.make 1 1 ![2, 2, 2]]).getModelMatrixInverse.1 1| ∧
        (PhysicalObject.make 1 1 1 1 1 [Body.make 1 1 ![2, 2, 2]]).bodySize <
          |Vec.mulVec4Mat4 (fun i => (([2, 0, 0] : List ℝ) ++ [1]).getD i 0)
            (PhysicalObject.make 1 1 1 1 1
              [Body.make 1 1 ![2, 2, 2]]).getModelMatrixInverse.1 2|)) := by
  intro hIff
  have hneg : ¬ (|(![2, 0, 0, 1] : Vec4) 0| <
        Real.sqrt 3 ∧ |(![2, 0, 0, 1] : Vec4) 1| < Real.sqrt 3 ∧
        |(![2, 0, 0, 1] : Vec4) 2| < Real.sqrt 3) := by
    intro hc
    have h1 := hc.1
    norm_num at h1
    linarith [sqrt_three_lt_two]
  have hck : (PhysicalObject.make 1 1 1 1 1
      [Body.make 1 1 ![2, 2, 2]]).checkHit [2, 0, 0] =
      (false, 0, ([2, 0, 0] : List ℝ) ++ [1]) := by
    rw [PhysicalObject.checkHit]
    dsimp only
    rw [modelInv_example, relPos_example, bodySize_example, if_neg hneg]
  have hrhs := hIff.mp ⟨by rw [hck], by rw [hck]⟩
  rw [modelInv_example, relPos_example, bodySize_example] at hrhs
  have h2 := hrhs.2.1
  norm_num at h2
  linarith [Real.sqrt_nonneg 3]

/-- Witness for C3's characterization at the example object and the point
`[2, 0, 0]`: the fast path rejects without testing the body. -/
theorem checkHit_characterization_witness :
    (PhysicalObject.make 1 1 1 1 1 [Body.make 1 1 ![2, 2, 2]]).checkHit
      [2, 0, 0] = (false, 0, ([2, 0, 0] : List ℝ) ++ [1]) := by
  apply (checkHit_characterization
    (PhysicalObject.make 1 1 1 1 1 [Body.make 1 1 ![2, 2, 2]]) [2, 0, 0]).1
  rw [modelInv_example, relPos_example, bodySize_example]
  intro hc
  have h1 := hc.1
  norm_num at h1
  linarith [sqrt_three_lt_two]

set_option linter.unnecessarySeqFocus false in
/-- Extracting the translation components of a translation matrix gives
back the translated vector. -/
theorem Mat.translationVector3_translation4v (v : Vec3) :
    Mat.translationVector3 (Mat.translation4v v) = v := by
  funext i
  fin_cases i <;>
    norm_num [Mat.translationVector3, Mat.translation4v, Matrix.vecHead,
      Matrix.vecTail] <;> rfl

/-- The 3x3 rotation part of the 45-degree example rotation. -/
theorem matrix3from4_rotZ45 :
    Mat.matrix3from4 rotZ45 =
      !![Real.sqrt 2 / 2, Real.sqrt 2 / 2, 0;
         -(Real.sqrt 2 / 2), Real.sqrt 2 / 2, 0;
         0, 0, 1] := by
  ext i j
  fin_cases i <;> fin_cases j <;>
    norm_num [Mat.matrix3from4, rotZ45, Fin.castSucc_mk, Matrix.vecHead,
      Matrix.vecTail]

/-- The code's rotated-then-sign-flipped half-dimension vector for the
example body: `(1,1,0)` rotated by 45 degrees is `(0, √2, 0)`. -/
theorem rotatedBody_halfDim :
    Vec.mulVec3Mat3 rotatedBody.getHalfDimensions
      (Mat.matrix3from4 (Mat.mul4 1 rotatedBody.orientationMatrix)) =
      ![0, Real.sqrt 2, 0] := by
  have hm : Mat.mul4 1 rotatedBody.orientationMatrix = rotZ45 := by
    rw [Mat.mul4, one_mul]
    rfl
  rw [hm, matrix3from4_rotZ45]
  funext j
  fin_cases j <;>
    norm_num [Vec.mulVec3Mat3, rotatedBody, Body.make, Body.getHalfDimensions,
      Matrix.vecHead, Matrix.vecTail]

/-- The true corner offset of the example body at signs `(1, -1, 1)`:
`(1, -1, 0)` rotated by 45 degrees is `(√2, 0, 0)`. -/
theorem rotatedBody_sigma_prod :
    Vec.mulVec3Mat3
      (fun i => (![1, -1, 1] : Vec3) i * rotatedBody.getHalfDimensions i)
      (Mat.matrix3from4 rotatedBody.orientationMatrix) =
      ![Real.sqrt 2, 0, 0] := by
  have hm : Mat.matrix3from4 rotatedBody.orientationMatrix =
      !![Real.sqrt 2 / 2, Real.sqrt 2 / 2, 0;
         -(Real.sqrt 2 / 2), Real.sqrt 2 / 2, 0;
         0, 0, 1] := matrix3from4_rotZ45
  rw [hm]
  funext j
  fin_cases j <;>
    norm_num [Vec.mulVec3Mat3, rotatedBody, Body.make, Body.getHalfDimensions,
      Matrix.vecHead, Matrix.vecTail]

/-- The bounding radius the code computes for the rotated example body. -/
theorem bodySize_rotated :
    PhysicalObject.calculateBodySize 1 [rotatedBody] = Real.sqrt 3 := by
  rw [PhysicalObject.calculateBodySize]
  dsimp only [List.foldl]
  rw [PhysicalObject.bodySizeStep]
  have hbp : Mat.translationVector3 rotatedBody.positionMatrix =
      ![1, 0, 0] := Mat.translationVector3_translation4v ![1, 0, 0]
  rw [hbp, rotatedBody_halfDim]
  have hs2 : Real.sqrt 2 * Real.sqrt 2 = 2 := Real.mul_self_sqrt (by norm_num)
  norm_num [Vec.add3, Vec.length3, Matrix.vecHead, Matrix.vecTail, hs2,
    max_self, max_eq_right (Real.sqrt_nonneg 3)]

/-- The true distance from the object's origin to the example body's
corner at signs `(1, -1, 1)`. -/
theorem cornerDistance_rotated :
    rotatedBody.cornerDistance ![1, -1, 1] = 1 + Real.sqrt 2 := by
  rw [Body.cornerDistance]
  have hbp : Mat.translationVector3 rotatedBody.positionMatrix =
      ![1, 0, 0] := Mat.translationVector3_translation4v ![1, 0, 0]
  rw [hbp, rotatedBody_sigma_prod]
  have hadd : Vec.add3 ![1, 0, 0] ![Real.sqrt 2, 0, 0] =
      ![1 + Real.sqrt 2, 0, 0] := by
    funext i
    fin_cases i <;> norm_num [Vec.add3, Matrix.vecHead, Matrix.vecTail]
  rw [hadd, Vec.length3]
  have h0 : (0 : ℝ) ≤ 1 + Real.sqrt 2 := by positivity
  have hmm : (![1 + Real.sqrt 2, 0, 0] : Vec3) 0 *
        (![1 + Real.sqrt 2, 0, 0] : Vec3) 0 +
      (![1 + Real.sqrt 2, 0, 0] : Vec3) 1 * (![1 + Real.sqrt 2, 0, 0] : Vec3) 1 +
      (![1 + Real.sqrt 2, 0, 0] : Vec3) 2 * (![1 + Real.sqrt 2, 0, 0] : Vec3) 2 =
      (1 + Real.sqrt 2) * (1 + Real.sqrt 2) := by
    norm_num [Matrix.vecHead, Matrix.vecTail]
  rw [hmm, Real.sqrt_mul_self h0]

/-- Numeric fact: `√3 < 1 + √2`. -/
theorem sqrt_three_lt_one_add_sqrt_two : Real.sqrt 3 < 1 + Real.sqrt 2 := by
  have h2 : Real.sqrt 2 ^ 2 = 2 := Real.sq_sqrt (by norm_num)
  have h3 : Real.sqrt 3 ^ 2 = 3 := Real.sq_sqrt (by norm_num)
  nlinarith [Real.sqrt_nonneg 2, Real.sqrt_nonneg 3,
    sq_nonneg (Real.sqrt 3 - 1 - Real.sqrt 2),
    sq_nonneg (Real.sqrt 3 + 1 + Real.sqrt 2)]

/-- C4: the fast-rejection bounding radius under-estimates the true
farthest body corner.  `_calculateBodySize` flips the signs of the
components of the *already rotated* half-dimension vector instead of
rotating each sign-flipped corner offset, so for the 45-degree-rotated
example body it computes `√3`, while the body's corner at signs
`(1, -1, 1)` lies at distance `1 + √2 > √3` from the object's origin; the
constructed object's stored `_bodySize` is therefore smaller than the true
farthest corner distance, contradicting the claim (and the code's own
documentation of `_bodySize` as "the distance between the center of the
object and the farthest point of its bodies"). -/
theorem bodySize_underestimates_corner :
    PhysicalObject.calculateBodySize 1 [rotatedBody] = Real.sqrt 3 ∧
      rotatedBody.cornerDistance ![1, -1, 1] = 1 + Real.sqrt 2 ∧
      (PhysicalObject.make 1 1 1 1 1 [rotatedBody]).bodySize <
        rotatedBody.cornerDistance ![1, -1, 1] := by
  refine ⟨bodySize_rotated, cornerDistance_rotated, ?_⟩
  show PhysicalObject.calculateBodySize 1 [rotatedBody] <
    rotatedBody.cornerDistance ![1, -1, 1]
  rw [bodySize_rotated, cornerDistance_rotated]
  exact sqrt_three_lt_one_add_sqrt_two
